import Mathlib

/-!
Shallow embedding of the hate-speech-detection relay and score aggregator.

The repository has two parts inside src/backend/server.js: an Express relay
(the POST /analyze handler) and a browser-side script (analyzeToxicity,
processApiResponse, displayVerdict, createCategoryCard).  src/unnamed/part_000
is an earlier, smaller version of the relay.  Machine numbers are modelled as
Nat / Int / Rat; the JavaScript NaN produced by the unguarded 0/0 division in
processApiResponse is modelled by an Option that is none exactly in that case.
-/

namespace Moderation

/-- A JavaScript value as it can appear in the request body field text.
Objects and arrays are opaque: the handler only asks whether the value is
falsy and whether it is a string. -/
inductive JsValue where
  | vStr (s : String)
  | vNum (n : Int)
  | vBool (b : Bool)
  | vNull
  | vObj
  | vArr
deriving DecidableEq, Repr

/-- JavaScript truthiness of a value, as tested by the code with !text:
the empty string, 0, false and null are falsy; objects and arrays are truthy. -/
def jsTruthy : JsValue → Bool
  | .vStr s => !(s == "")
  | .vNum n => !(n == 0)
  | .vBool b => b
  | .vNull => false
  | .vObj => true
  | .vArr => true

/-- The typeof text !== "string" test of the handler. -/
def isStringVal : JsValue → Bool
  | .vStr _ => true
  | _ => false

/-- One element of the results array of the moderation payload.  The
categories object is kept as the key/value sequence of the JSON text, so that
facts about key order in the payload can be stated; the code reads it only
through property lookup. -/
structure ModerationRecord where
  flagged : Bool
  categories : List (String × Bool)
deriving DecidableEq, Repr

/-- The parsed moderation payload: data.results. -/
structure ModerationData where
  results : List ModerationRecord
deriving DecidableEq, Repr

/-- Property lookup on a JSON object given as a key/value sequence.  In a
JavaScript object a later duplicate key overwrites an earlier one, so the
lookup takes the last matching entry; none models undefined. -/
def lookupKey : List (String × Bool) → String → Option Bool
  | [], _ => none
  | p :: rest, k =>
    match lookupKey rest k with
    | some b => some b
    | none => if p.1 = k then some p.2 else none

/-- The JSON body the relay sends back: a status code, the error and details
fields of the error payloads, the passed-through moderation payload on
success, and a flag recording whether the outbound fetch was initiated. -/
structure Response where
  status : Nat
  error : Option String
  details : Option String
  body : Option ModerationData
  outbound : Bool
deriving DecidableEq, Repr

/-- 400 response of the first validation check (!text). -/
def missingTextResp : Response :=
  ⟨400, some "Text is required", some "Please provide text to analyze", none, false⟩

/-- 400 response of the second validation check (typeof text !== "string"). -/
def invalidTypeResp : Response :=
  ⟨400, some "Invalid input type", some "Text must be a string", none, false⟩

/-- 400 response of the third validation check (text.trim().length === 0). -/
def emptyTextResp : Response :=
  ⟨400, some "Empty text", some "Please provide non-empty text to analyze", none, false⟩

/-- 400 response of the fourth validation check (text.length > 10000). -/
def tooLongResp : Response :=
  ⟨400, some "Text too long", some "Maximum 10,000 characters allowed", none, false⟩

/-- 500 response of the API-key check. -/
def configErrResp : Response :=
  ⟨500, some "Server configuration error",
   some "OpenAI API key is not configured. Please contact the administrator.", none, false⟩

/-- JavaScript String.prototype.trim: drop whitespace from both ends.  Stated
over the character list of the string so that it computes by structural
recursion. -/
def jsTrim (s : String) : String :=
  ⟨((s.data.dropWhile Char.isWhitespace).reverse.dropWhile Char.isWhitespace).reverse⟩

/-- The four input-validation checks of the POST /analyze handler, in source
order, short-circuiting on the first failure; none means validation passed.
The argument is none when the text field is absent from the body. -/
def validateText : Option JsValue → Option Response
  | none => some missingTextResp
  | some v =>
    if jsTruthy v = false then some missingTextResp
    else
      match v with
      | .vStr s =>
        if (jsTrim s).length = 0 then some emptyTextResp
        else if s.length > 10000 then some tooLongResp
        else none
      | _ => some invalidTypeResp

/-- The !OPENAI_API_KEY check: the key is falsy when the environment variable
is unset or set to the empty string. -/
def keyFalsy : Option String → Bool
  | none => true
  | some s => s == ""

/-- What the upstream response body does when the handler calls
response.json(): either it parses to a moderation payload, or the call throws
with the given message. -/
inductive UpstreamBody where
  | parses (d : ModerationData)
  | malformed (errMsg : String)
deriving DecidableEq, Repr

/-- Outcome of the outbound fetch: the promise rejects with an error message,
or a response with the given HTTP status arrives. -/
inductive Upstream where
  | fetchThrows (errMsg : String)
  | response (status : Nat) (body : UpstreamBody)
deriving DecidableEq, Repr

/-- Whether the first character list is an initial segment of the second. -/
def startsWithChars : List Char → List Char → Bool
  | [], _ => true
  | _ :: _, [] => false
  | a :: as, b :: bs => a == b && startsWithChars as bs

/-- Whether the pattern occurs as a contiguous run inside the text. -/
def hasSubstrChars (pat : List Char) : List Char → Bool
  | [] => startsWithChars pat []
  | c :: rest => startsWithChars pat (c :: rest) || hasSubstrChars pat rest

/-- The error.message.includes("fetch") test of the catch block. -/
def containsFetch (s : String) : Bool :=
  hasSubstrChars "fetch".toList s.toList

/-- 502 response of the catch block when the error message mentions fetch. -/
def connectFailResp : Response :=
  ⟨502, some "Failed to connect to OpenAI",
   some "Could not reach OpenAI API. Please try again.", none, true⟩

/-- 500 response of the catch block for every other exception; details echoes
the exception message. -/
def internalErrResp (msg : String) : Response :=
  ⟨500, some "Internal server error", some msg, none, true⟩

/-- The catch block of the handler: a thrown error whose message mentions
fetch becomes a 502 connect failure, anything else a 500 internal error. -/
def catchResponse (msg : String) : Response :=
  if containsFetch msg then connectFailResp else internalErrResp msg

/-- 500 response for an upstream 401. -/
def authFailedResp : Response :=
  ⟨500, some "API authentication failed", some "Invalid or expired OpenAI API key", none, true⟩

/-- 429 response for an upstream 429. -/
def rateLimitResp : Response :=
  ⟨429, some "Rate limit exceeded", some "Too many requests. Please try again later.", none, true⟩

/-- 502 response for every other non-success upstream status, carrying the
upstream numeric status in details. -/
def upstreamErrResp (s : Nat) : Response :=
  ⟨502, some "OpenAI API error", some ("API returned status " ++ toString s), none, true⟩

/-- response.ok of the fetch API: the status is in the 200..299 range. -/
def respOk (s : Nat) : Bool :=
  if 200 ≤ s ∧ s < 300 then true else false

/-- The if/else chain of the handler for a non-ok upstream status. -/
def mapUpstreamError (s : Nat) : Response :=
  if s = 401 then authFailedResp
  else if s = 429 then rateLimitResp
  else upstreamErrResp s

/-- 200 response passing the parsed payload through unchanged. -/
def successResp (d : ModerationData) : Response :=
  ⟨200, none, none, some d, true⟩

/-- The POST /analyze handler of src/backend/server.js, as a function of the
configured API key, the text field of the request body, and the behaviour of
the one outbound call.  The outbound field of the result records whether the
fetch was initiated. -/
def analyze (apiKey : Option String) (text : Option JsValue) (up : Upstream) : Response :=
  match validateText text with
  | some err => err
  | none =>
    if keyFalsy apiKey then configErrResp
    else
      match up with
      | .fetchThrows msg => catchResponse msg
      | .response s body =>
        if respOk s = false then mapUpstreamError s
        else
          match body with
          | .parses d => successResp d
          | .malformed msg => catchResponse msg

/-! ### Score aggregator: processApiResponse and the display bands -/

/-- The categoryMap object literal of processApiResponse: the seven fixed
category keys with their display labels, in insertion order, which is the
iteration order of the for..in loop. -/
def categoryMap : List (String × String) :=
  [("hate", "Hate"), ("harassment", "Harassment"), ("self-harm", "Self Harm"),
   ("sexual", "Sexual Content"), ("violence", "Violence"),
   ("hate/threatening", "Hate / Threat"), ("harassment/threatening", "Harassment / Threat")]

/-- One entry of results.categories: display name, percentage score, and the
raw value score / 100. -/
structure CategoryScore where
  name : String
  score : Nat
  raw : ℚ
deriving DecidableEq, Repr

/-- The results object built by processApiResponse.  overall is none exactly
when the JavaScript value is NaN (the unguarded 0/0 division when no category
key is present). -/
structure ApiResults where
  overall : Option ℤ
  categories : List CategoryScore
deriving DecidableEq, Repr

/-- The score mapping of the loop body: true becomes 85, false becomes 5. -/
def scoreOf (b : Bool) : Nat := if b then 85 else 5

/-- The for..in loop of processApiResponse over the category map: collects the
category cards in iteration order and accumulates total and count over the
keys present in the categories object. -/
def scanCategories (cats : String → Option Bool) :
    List (String × String) → List CategoryScore × Nat × Nat
  | [] => ([], 0, 0)
  | p :: rest =>
    match cats p.1 with
    | none => scanCategories cats rest
    | some b =>
      let t := scanCategories cats rest
      (⟨p.2, scoreOf b, (scoreOf b : ℚ) / 100⟩ :: t.1, scoreOf b + t.2.1, 1 + t.2.2)

/-- JavaScript Math.round for the nonnegative rationals that occur here:
round half away from zero, that is the floor of q + 1/2. -/
def jsRound (q : ℚ) : ℤ := ⌊q + 1 / 2⌋

/-- The body of processApiResponse for the first element of results.  When
count is zero the JavaScript division 0/0 yields NaN, Math.round and Math.min
propagate it, and overall is NaN: modelled as none.  Otherwise overall is
Math.round(total / count), clamped by Math.min(100, _) when flagged. -/
def summarizeResult (r : ModerationRecord) : ApiResults :=
  let s := scanCategories (lookupKey r.categories) categoryMap
  { categories := s.1,
    overall :=
      if s.2.2 = 0 then none
      else if r.flagged then some (min 100 (jsRound ((s.2.1 : ℚ) / (s.2.2 : ℚ))))
      else some (jsRound ((s.2.1 : ℚ) / (s.2.2 : ℚ))) }

/-- processApiResponse itself: reads data.results[0]; none models the
TypeError the code throws when results is empty. -/
def processApiResponse (data : ModerationData) : Option ApiResults :=
  match data.results with
  | [] => none
  | r :: _ => some (summarizeResult r)

/-- The severity banding of displayVerdict and displayOverallScore applied to
the overall score: the iconClass strings safe, warning, danger. -/
def verdictClass (score : ℤ) : String :=
  if score < 30 then "safe" else if score < 70 then "warning" else "danger"

/-- The per-category severity banding of createCategoryCard. -/
def severityClass (score : Nat) : String :=
  if score < 30 then "safe" else if score < 70 then "warning" else "danger"

/-! ### Outbound call structure (timeouts) -/

/-- The shape of an outbound moderation call: its URL, whether the fetch is
given an AbortController signal, and the delay of a timer that aborts the
in-flight call, if one is installed. -/
structure OutboundRequest where
  url : String
  hasAbortSignal : Bool
  timeoutMs : Option Nat
deriving DecidableEq, Repr

/-- The outbound fetch of the relay (src/backend/server.js, POST /analyze):
no signal option and no timer, so the call can never be cancelled. -/
def relayModerationRequest : OutboundRequest :=
  { url := "https://api.openai.com/v1/moderations",
    hasAbortSignal := false,
    timeoutMs := none }

/-- Modelled from the spec: the browser configuration object CONFIG is not
under src/; the spec gives the request timeout as on the order of 10 seconds
(10000 ms). -/
def CONFIG_REQUEST_TIMEOUT : Nat := 10000

/-- The outbound fetch of the browser function analyzeToxicity: an
AbortController signal is passed, and a setTimeout of CONFIG.REQUEST_TIMEOUT
milliseconds aborts the in-flight call. -/
def analyzeToxicityRequest : OutboundRequest :=
  { url := "https://api.openai.com/v1/moderations",
    hasAbortSignal := true,
    timeoutMs := some CONFIG_REQUEST_TIMEOUT }

/-! ### Specification-side descriptions used to state the claims -/

/-- The list of the seven fixed category keys. -/
def categoryKeys : List String := categoryMap.map (fun p => p.1)

/-- The category-map entries whose key is present in a categories object. -/
def presentKeys (cats : List (String × Bool)) : List (String × String) :=
  categoryMap.filter (fun p => (lookupKey cats p.1).isSome)

/-- The category cards the spec describes: one per present key, in the fixed
enumeration order, scored 85 for true and 5 for false, raw = score / 100. -/
def specCards (cats : List (String × Bool)) : List CategoryScore :=
  categoryMap.filterMap (fun p =>
    (lookupKey cats p.1).map (fun b => ⟨p.2, scoreOf b, (scoreOf b : ℚ) / 100⟩))

/-- The sum of the scores assigned to the present keys. -/
def specTotal (cats : List (String × Bool)) : Nat :=
  ((categoryMap.filterMap (fun p => (lookupKey cats p.1).map scoreOf)).sum)

/-- The number of present keys. -/
def specCount (cats : List (String × Bool)) : Nat :=
  (presentKeys cats).length

/-! ### Lemmas about the aggregation loop -/

theorem scan_fst (cats : String → Option Bool) (L : List (String × String)) :
    (scanCategories cats L).1 =
      L.filterMap (fun p =>
        (cats p.1).map (fun b => ⟨p.2, scoreOf b, (scoreOf b : ℚ) / 100⟩)) := by
  induction L with
  | nil => rfl
  | cons p rest ih =>
    cases h : cats p.1 <;> simp [scanCategories, h, ih]

theorem scan_total (cats : String → Option Bool) (L : List (String × String)) :
    (scanCategories cats L).2.1 =
      (L.filterMap (fun p => (cats p.1).map scoreOf)).sum := by
  induction L with
  | nil => rfl
  | cons p rest ih =>
    cases h : cats p.1 <;> simp [scanCategories, h, ih]

theorem scan_count (cats : String → Option Bool) (L : List (String × String)) :
    (scanCategories cats L).2.2 =
      (L.filter (fun p => (cats p.1).isSome)).length := by
  induction L with
  | nil => rfl
  | cons p rest ih =>
    cases h : cats p.1 <;> simp [scanCategories, h, ih, Nat.add_comm]

theorem scan_total_le (cats : String → Option Bool) (L : List (String × String)) :
    (scanCategories cats L).2.1 ≤ 85 * (scanCategories cats L).2.2 := by
  induction L with
  | nil => simp [scanCategories]
  | cons p rest ih =>
    cases h : cats p.1 with
    | none => simpa [scanCategories, h] using ih
    | some b =>
      have hb : scoreOf b ≤ 85 := by cases b <;> decide
      simp only [scanCategories, h]
      omega

theorem scan_congr (c₁ c₂ : String → Option Bool) (L : List (String × String))
    (h : ∀ p ∈ L, c₁ p.1 = c₂ p.1) :
    scanCategories c₁ L = scanCategories c₂ L := by
  induction L with
  | nil => rfl
  | cons p rest ih =>
    have hp := h p (List.mem_cons_self p rest)
    have ih' := ih (fun q hq => h q (List.mem_cons_of_mem _ hq))
    simp [scanCategories, hp, ih']

theorem scan_names (cats : String → Option Bool) (L : List (String × String)) :
    ((scanCategories cats L).1).map (fun c => c.name) =
      (L.filter (fun p => (cats p.1).isSome)).map (fun p => p.2) := by
  induction L with
  | nil => rfl
  | cons p rest ih =>
    cases h : cats p.1 <;> simp [scanCategories, h, ih]

/-- The cards produced by processApiResponse are exactly the
specification-side list: fixed enumeration order, one card per present key. -/
theorem summarize_categories (r : ModerationRecord) :
    (summarizeResult r).categories = specCards r.categories := by
  simp [summarizeResult, specCards, scan_fst]

/-- The loop count equals the number of present keys. -/
theorem summarize_count (r : ModerationRecord) :
    (scanCategories (lookupKey r.categories) categoryMap).2.2 = specCount r.categories := by
  simp [scan_count, specCount, presentKeys]

/-- The loop total equals the specification-side total. -/
theorem summarize_total (r : ModerationRecord) :
    (scanCategories (lookupKey r.categories) categoryMap).2.1 = specTotal r.categories := by
  simp [scan_total, specTotal]

/-- With at least one category key present, the Math.min(100, _) clamp of the
flagged branch is a no-op and overall is Math.round(total / count). -/
theorem summarize_overall_pos (r : ModerationRecord) (h : specCount r.categories ≠ 0) :
    (summarizeResult r).overall =
      some (jsRound ((specTotal r.categories : ℚ) / (specCount r.categories : ℚ))) := by
  have hc := summarize_count r
  have ht := summarize_total r
  set t := (scanCategories (lookupKey r.categories) categoryMap).2.1 with htdef
  set c := (scanCategories (lookupKey r.categories) categoryMap).2.2 with hcdef
  have hle : t ≤ 85 * c := scan_total_le _ _
  have hcpos : 0 < c := by omega
  have hq : (t : ℚ) / (c : ℚ) ≤ 85 := by
    rw [div_le_iff₀ (by exact_mod_cast hcpos)]
    exact_mod_cast hle
  have hround : jsRound ((t : ℚ) / (c : ℚ)) ≤ 100 := by
    have h85 : jsRound ((t : ℚ) / (c : ℚ)) ≤ jsRound 85 := by
      unfold jsRound
      exact Int.floor_le_floor (by linarith)
    have : jsRound (85 : ℚ) = 85 := by norm_num [jsRound, Int.floor_eq_iff]
    omega
  have hmin : min (100 : ℤ) (jsRound ((t : ℚ) / (c : ℚ))) = jsRound ((t : ℚ) / (c : ℚ)) :=
    min_eq_right hround
  simp only [summarizeResult, ← htdef, ← hcdef, hc, ht] at *
  rcases Nat.eq_zero_or_pos (specCount r.categories) with h0 | hpos
  · omega
  · cases hf : r.flagged <;> simp [h, hmin, hc, ht]

/-! ### Specification-side validation order (for the amended claim C2) -/

/-- The validation order as the amended claim words it: absent or JavaScript
falsy text is rejected as missing; a present truthy non-string as an invalid
type; a truthy string that is empty after trimming as empty; a longer than
10000 character string as too long; in that order, short-circuiting.  The
final wildcard is unreachable because a truthy non-string was already
rejected. -/
def specValidate : Option JsValue → Option Response
  | none => some missingTextResp
  | some v =>
    if jsTruthy v = false then some missingTextResp
    else if isStringVal v = false then some invalidTypeResp
    else
      match v with
      | .vStr s =>
        if (jsTrim s).length = 0 then some emptyTextResp
        else if s.length > 10000 then some tooLongResp
        else none
      | _ => none

/-- The handler checks coincide with the amended ordering. -/
theorem validate_eq_spec (t : Option JsValue) : validateText t = specValidate t := by
  cases t with
  | none => rfl
  | some v => cases v <;> simp [validateText, specValidate, isStringVal, jsTruthy]

/-- Concrete sample payload used by witnesses that need an upstream value. -/
def emptyData : ModerationData := ⟨[]⟩

/-! ### Claims -/

/-- C1: for every moderation record with at least one of the seven fixed
category keys present, processApiResponse assigns each present key the score
85 when its flag is true and 5 when it is false, skips absent keys, and the
overall score is Math.round(total / count), the rounded arithmetic mean of
the assigned scores (the Math.min clamp of the flagged branch is a no-op). -/
theorem c1_summarize_mean (r : ModerationRecord) (h : specCount r.categories ≠ 0) :
    (summarizeResult r).categories = specCards r.categories ∧
    (summarizeResult r).overall =
      some (jsRound ((specTotal r.categories : ℚ) / (specCount r.categories : ℚ))) :=
  ⟨summarize_categories r, summarize_overall_pos r h⟩

/-- Witness for C1 at a record with one present key. -/
theorem c1_witness :
    specCount [("hate", true)] ≠ 0 ∧
    ((summarizeResult ⟨true, [("hate", true)]⟩).categories = specCards [("hate", true)] ∧
     (summarizeResult ⟨true, [("hate", true)]⟩).overall =
       some (jsRound ((specTotal [("hate", true)] : ℚ) / (specCount [("hate", true)] : ℚ)))) :=
  ⟨by decide, c1_summarize_mean ⟨true, [("hate", true)]⟩ (by decide)⟩

/-- C2 counterexample: the claim says the empty-string input yields the
EmptyInput error, but the !text check uses JavaScript truthiness, so the
empty string is caught by the first check and yields the MissingInput error
(Text is required), with no outbound call. -/
theorem c2_counterexample :
    validateText (some (.vStr "")) = some missingTextResp ∧
    missingTextResp.error = some "Text is required" ∧
    validateText (some (.vStr "")) ≠ some emptyTextResp ∧
    analyze (some "sk-key") (some (.vStr "")) (.response 200 (.parses ⟨[]⟩)) =
      missingTextResp := by
  decide

/-- C2 as amended: whenever the ordered checks of the amended wording reject
the text (absent or falsy as missing, truthy non-string as invalid type,
truthy string trimming to empty as empty, longer than 10000 as too long),
the handler rejects it with exactly that 400 response and performs no
outbound call. -/
theorem c2_amended_validation (key : Option String) (up : Upstream) (t : Option JsValue)
    (r : Response) (h : specValidate t = some r) :
    validateText t = some r ∧ analyze key t up = r ∧
    r.status = 400 ∧ r.outbound = false := by
  have hv : validateText t = some r := (validate_eq_spec t).trans h
  have hfour : r = missingTextResp ∨ r = invalidTypeResp ∨
      r = emptyTextResp ∨ r = tooLongResp := by
    cases t with
    | none =>
      simp only [specValidate, Option.some.injEq] at h
      exact Or.inl h.symm
    | some v =>
      cases v <;> simp only [specValidate] at h <;> split_ifs at h <;>
        simp only [Option.some.injEq, reduceCtorEq] at h <;> tauto
  refine ⟨hv, by simp [analyze, hv], ?_, ?_⟩ <;>
    rcases hfour with h4 | h4 | h4 | h4 <;> subst h4 <;> rfl

/-- Witness for C2 at a whitespace-only string, rejected as empty. -/
theorem c2_witness :
    specValidate (some (.vStr " ")) = some emptyTextResp ∧
    (validateText (some (.vStr " ")) = some emptyTextResp ∧
     analyze none (some (.vStr " ")) (.fetchThrows "net down") = emptyTextResp ∧
     emptyTextResp.status = 400 ∧ emptyTextResp.outbound = false) :=
  ⟨by decide, c2_amended_validation none (.fetchThrows "net down") _ _ (by decide)⟩

/-- C3 counterexample: the claim says every upstream failure other than rate
limiting is reported with local status 502, but an upstream 401 is reported
with local status 500. -/
theorem c3_counterexample :
    analyze (some "sk-key") (some (.vStr "hello")) (.response 401 (.parses ⟨[]⟩)) =
      authFailedResp ∧
    authFailedResp.status = 500 ∧ authFailedResp.status ≠ 502 := by
  decide

/-- C3 as amended: the mapping of non-success upstream statuses is
deterministic: 401 becomes the auth-failed error with local status 500, 429
is relayed as 429 with the rate-limit message, and every other status becomes
the generic 502 upstream error carrying the upstream numeric status. -/
theorem c3_amended_status_map (key : Option String) (t : Option JsValue) (s : Nat)
    (b : UpstreamBody) (hv : validateText t = none) (hk : keyFalsy key = false)
    (hs : respOk s = false) :
    analyze key t (.response s b) = mapUpstreamError s ∧
    mapUpstreamError s =
      (if s = 401 then authFailedResp
       else if s = 429 then rateLimitResp
       else upstreamErrResp s) ∧
    authFailedResp.status = 500 ∧ rateLimitResp.status = 429 ∧
    (upstreamErrResp s).status = 502 ∧
    (upstreamErrResp s).details = some ("API returned status " ++ toString s) := by
  refine ⟨?_, rfl, rfl, rfl, rfl, rfl⟩
  simp [analyze, hv, hk, hs]

/-- Witness for C3 at an upstream 503. -/
theorem c3_witness :
    validateText (some (.vStr "hi")) = none ∧ keyFalsy (some "sk-key") = false ∧
    respOk 503 = false ∧
    (analyze (some "sk-key") (some (.vStr "hi")) (.response 503 (.parses emptyData)) =
       mapUpstreamError 503 ∧
     mapUpstreamError 503 =
       (if 503 = 401 then authFailedResp
        else if 503 = 429 then rateLimitResp
        else upstreamErrResp 503) ∧
     authFailedResp.status = 500 ∧ rateLimitResp.status = 429 ∧
     (upstreamErrResp 503).status = 502 ∧
     (upstreamErrResp 503).details = some ("API returned status " ++ toString 503)) :=
  ⟨by decide, by decide, by decide,
   c3_amended_status_map (some "sk-key") (some (.vStr "hi")) 503 (.parses emptyData)
     (by decide) (by decide) (by decide)⟩

/-- C4 counterexample: the claim says the division-by-zero condition is
guarded explicitly (a NoCategories failure or a 0 default), but with no
category key present the code divides 0 by 0: in JavaScript that is NaN,
Math.round and Math.min propagate NaN, and overall is NaN (modelled none),
not 0 and not an explicit failure. -/
theorem c4_counterexample :
    (summarizeResult ⟨false, []⟩).overall = none ∧
    (summarizeResult ⟨true, []⟩).overall = none ∧
    (summarizeResult ⟨false, []⟩).overall ≠ some 0 := by
  decide

/-- C4 as amended: when none of the seven fixed keys is present the division
is unguarded and overall is the NaN of 0/0 (modelled none), for either value
of the flagged bit. -/
theorem c4_amended_nan_overall (r : ModerationRecord) (h : specCount r.categories = 0) :
    (summarizeResult r).overall = none := by
  have hc0 : (scanCategories (lookupKey r.categories) categoryMap).2.2 = 0 := by
    rw [summarize_count]; exact h
  simp [summarizeResult, hc0]

/-- Witness for C4 at a record whose only key is not one of the seven. -/
theorem c4_witness :
    specCount [("foo", true)] = 0 ∧
    (summarizeResult ⟨true, [("foo", true)]⟩).overall = none :=
  ⟨by decide, c4_amended_nan_overall ⟨true, [("foo", true)]⟩ (by decide)⟩

/-- The categories object of the C5 scenario: all seven keys present, hate
true, the rest false. -/
def c5Categories : List (String × Bool) :=
  [("hate", true), ("harassment", false), ("self-harm", false), ("sexual", false),
   ("violence", false), ("hate/threatening", false), ("harassment/threatening", false)]

/-- C5: on the scenario record (flagged, hate true, others false) the summary
has seven categories with hate at 85 and the others at 5, overall
Math.round(115/7) = 16, and the verdict band of 16 is safe. -/
theorem c5_hate_scenario :
    (summarizeResult ⟨true, c5Categories⟩).overall = some 16 ∧
    ((summarizeResult ⟨true, c5Categories⟩).categories.map (fun c => (c.name, c.score))) =
      [("Hate", 85), ("Harassment", 5), ("Self Harm", 5), ("Sexual Content", 5),
       ("Violence", 5), ("Hate / Threat", 5), ("Harassment / Threat", 5)] ∧
    verdictClass 16 = "safe" := by
  refine ⟨?_, by decide, by decide⟩
  have h := summarize_overall_pos ⟨true, c5Categories⟩ (by decide)
  have h1 : specTotal c5Categories = 115 := by decide
  have h2 : specCount c5Categories = 7 := by decide
  rw [h, h1, h2]
  norm_num [jsRound, Int.floor_eq_iff]

/-- C6 counterexample: the claim says every outbound call from the relay is
subject to a bounded timeout that cancels the in-flight call, but the relay
fetch passes no abort signal and installs no timer. -/
theorem c6_counterexample :
    relayModerationRequest.hasAbortSignal = false ∧
    relayModerationRequest.timeoutMs = none := by
  decide

/-- C6 as amended: the relay outbound call has no timeout and can never be
cancelled; only the browser-side analyzeToxicity call is subject to a bounded
timeout (CONFIG.REQUEST_TIMEOUT, 10 seconds per the spec) wired through an
AbortController that cancels the in-flight call. -/
theorem c6_amended_timeouts :
    relayModerationRequest.timeoutMs = none ∧
    relayModerationRequest.hasAbortSignal = false ∧
    analyzeToxicityRequest.hasAbortSignal = true ∧
    analyzeToxicityRequest.timeoutMs = some CONFIG_REQUEST_TIMEOUT ∧
    CONFIG_REQUEST_TIMEOUT = 10000 := by
  decide

/-- The message of the exception response.json() raises on a non-JSON body:
it names the URL and the parse problem, and does not contain fetch. -/
def malformedJsonMsg : String :=
  "invalid json response body at https://api.openai.com/v1/moderations reason: Unexpected token"

/-- C7 counterexample: the claim says a parse failure on an upstream success
is reported as UpstreamMalformed (a distinct upstream-class 502 error), but
the thrown parse error lands in the generic catch block and, since its
message does not contain fetch, the caller gets the generic 500 internal
error, indistinguishable from any other unexpected exception. -/
theorem c7_counterexample :
    analyze (some "sk-key") (some (.vStr "hello"))
        (.response 200 (.malformed malformedJsonMsg)) =
      internalErrResp malformedJsonMsg ∧
    (internalErrResp malformedJsonMsg).status = 500 ∧
    (internalErrResp malformedJsonMsg).status ≠ 502 ∧
    (internalErrResp malformedJsonMsg).error = some "Internal server error" := by
  decide

/-- C7 as amended: on an upstream success status the body is parsed as JSON;
when parsing succeeds the payload is returned unchanged (status 200, pure
pass-through, no business logic); when parsing fails the thrown error is
handled by the generic catch block, becoming the 502 connect failure if its
message contains fetch and the 500 internal error otherwise, with no distinct
UpstreamMalformed category. -/
theorem c7_amended_passthrough (key : Option String) (t : Option JsValue) (s : Nat)
    (d : ModerationData) (msg : String)
    (hv : validateText t = none) (hk : keyFalsy key = false) (hs : respOk s = true) :
    analyze key t (.response s (.parses d)) = successResp d ∧
    (successResp d).body = some d ∧ (successResp d).status = 200 ∧
    analyze key t (.response s (.malformed msg)) = catchResponse msg ∧
    catchResponse msg =
      (if containsFetch msg then connectFailResp else internalErrResp msg) := by
  refine ⟨?_, rfl, rfl, ?_, rfl⟩ <;> simp [analyze, hv, hk, hs]

/-- Witness for C7 at a 200 response with a well-formed and a malformed body. -/
theorem c7_witness :
    validateText (some (.vStr "hi")) = none ∧ keyFalsy (some "sk-key") = false ∧
    respOk 200 = true ∧
    (analyze (some "sk-key") (some (.vStr "hi")) (.response 200 (.parses emptyData)) =
       successResp emptyData ∧
     (successResp emptyData).body = some emptyData ∧ (successResp emptyData).status = 200 ∧
     analyze (some "sk-key") (some (.vStr "hi")) (.response 200 (.malformed "bad body")) =
       catchResponse "bad body" ∧
     catchResponse "bad body" =
       (if containsFetch "bad body" then connectFailResp else internalErrResp "bad body")) :=
  ⟨by decide, by decide, by decide,
   c7_amended_passthrough (some "sk-key") (some (.vStr "hi")) 200 emptyData "bad body"
     (by decide) (by decide) (by decide)⟩

/-- C8: for every request that passes validation, when the API key is absent
from the process configuration the handler answers with the 500 configuration
error and the outbound call is never made, whatever the (unreached) upstream
would have done. -/
theorem c8_missing_key (t : Option JsValue) (up : Upstream)
    (hv : validateText t = none) :
    analyze none t up = configErrResp ∧ configErrResp.status = 500 ∧
    configErrResp.outbound = false := by
  refine ⟨?_, rfl, rfl⟩
  simp [analyze, hv, keyFalsy]

/-- Witness for C8 at a valid text with no key configured. -/
theorem c8_witness :
    validateText (some (.vStr "hello")) = none ∧
    (analyze none (some (.vStr "hello")) (.fetchThrows "unreached") = configErrResp ∧
     configErrResp.status = 500 ∧ configErrResp.outbound = false) :=
  ⟨by decide, c8_missing_key (some (.vStr "hello")) (.fetchThrows "unreached") (by decide)⟩

/-- C9: processApiResponse is deterministic and pure: two payloads whose
categories objects agree, as property lookups, on the seven fixed keys give
identical summaries whatever the order of keys in the payload text, and the
output category order is the fixed enumeration order restricted to the
present keys. -/
theorem c9_pure_fixed_order (flagged : Bool) (l₁ l₂ : List (String × Bool))
    (h : ∀ p ∈ categoryMap, lookupKey l₁ p.1 = lookupKey l₂ p.1) :
    summarizeResult ⟨flagged, l₁⟩ = summarizeResult ⟨flagged, l₂⟩ ∧
    ((summarizeResult ⟨flagged, l₁⟩).categories.map (fun c => c.name)) =
      (presentKeys l₁).map (fun p => p.2) := by
  constructor
  · have hscan : scanCategories (lookupKey l₁) categoryMap =
        scanCategories (lookupKey l₂) categoryMap := scan_congr _ _ _ h
    simp [summarizeResult, hscan]
  · simp [summarizeResult, scan_names, presentKeys]

/-- Witness for C9 at two payloads listing the same two keys in opposite
orders. -/
theorem c9_witness :
    (∀ p ∈ categoryMap,
      lookupKey [("hate", true), ("sexual", false)] p.1 =
        lookupKey [("sexual", false), ("hate", true)] p.1) ∧
    (summarizeResult ⟨false, [("hate", true), ("sexual", false)]⟩ =
       summarizeResult ⟨false, [("sexual", false), ("hate", true)]⟩ ∧
     ((summarizeResult ⟨false, [("hate", true), ("sexual", false)]⟩).categories.map
        (fun c => c.name)) =
       (presentKeys [("hate", true), ("sexual", false)]).map (fun p => p.2)) :=
  ⟨by decide,
   c9_pure_fixed_order false [("hate", true), ("sexual", false)]
     [("sexual", false), ("hate", true)] (by decide)⟩

/-- C10: every category card produced by processApiResponse has score exactly
5 or 85, raw exactly score / 100, and its severity band is safe or danger:
the per-category warning band is unreachable. -/
theorem c10_score_invariant (r : ModerationRecord) (cs : CategoryScore)
    (h : cs ∈ (summarizeResult r).categories) :
    (cs.score = 5 ∨ cs.score = 85) ∧ cs.raw = (cs.score : ℚ) / 100 ∧
    (severityClass cs.score = "safe" ∨ severityClass cs.score = "danger") ∧
    severityClass cs.score ≠ "warning" := by
  rw [summarize_categories, specCards, List.mem_filterMap] at h
  obtain ⟨p, hp, hmap⟩ := h
  rw [Option.map_eq_some'] at hmap
  obtain ⟨b, hb, rfl⟩ := hmap
  cases b <;> exact ⟨by simp [scoreOf], rfl, by simp [scoreOf, severityClass],
    by simp [scoreOf, severityClass]⟩

/-- Witness for C10 at the hate card of a one-key record. -/
theorem c10_witness :
    (⟨"Hate", scoreOf true, (scoreOf true : ℚ) / 100⟩ : CategoryScore) ∈
      (summarizeResult ⟨false, [("hate", true)]⟩).categories ∧
    ((scoreOf true = 5 ∨ scoreOf true = 85) ∧
     (⟨"Hate", scoreOf true, (scoreOf true : ℚ) / 100⟩ : CategoryScore).raw =
       ((scoreOf true : ℚ)) / 100 ∧
     (severityClass (scoreOf true) = "safe" ∨ severityClass (scoreOf true) = "danger") ∧
     severityClass (scoreOf true) ≠ "warning") :=
  ⟨List.mem_singleton.mpr rfl,
   c10_score_invariant ⟨false, [("hate", true)]⟩ _ (List.mem_singleton.mpr rfl)⟩

end Moderation

